import Mathlib

/-
Verification of the talib_wrappers abstract-interface layer.

The repository ships only build configuration (setup.py) and the test
suite (test_abstract.py); the Cython extension module
`talib/ta_abstract.pyx` that setup.py compiles is absent.  Every
definition below therefore carries a doc comment starting
`Modelled from the spec:` and embeds the behaviour the specification
prescribes for that module.  Numeric buffers are modelled as lists of
rationals (exact arithmetic stands in for floating point, so an
"equal to within tolerance" obligation becomes exact equality).
-/

set_option autoImplicit false

namespace TaAbstract

/-- Modelled from the spec: description of one required input or output
parameter of a native function (name and type copied verbatim from the
native metadata, flags a semantic bitmask such as the "line" output flag). -/
structure ParameterDescription where
  name : String
  type : String
  flags : Nat
deriving DecidableEq

/-- Modelled from the spec: description of an optional parameter, which
extends a parameter description with a recorded default value. -/
structure OptionalParameterDescription where
  name : String
  type : String
  defaultValue : Int
deriving DecidableEq

/-- Modelled from the spec: one entry of the native parameter table, split
by kind into input-price-like entries, output entries and optional entries. -/
inductive NativeParam where
  | input (p : ParameterDescription)
  | output (p : ParameterDescription)
  | optional (p : OptionalParameterDescription)

/-- Modelled from the spec: the native metadata record for one function of
the external library (the missing `ta_abstract.pyx` queries these through
the TA-Lib abstract interface).  `lookback` gives the warm-up sample count
for resolved optional values and `kernel` the per-index mathematics of the
native routine, one value per output description. -/
structure NativeFuncInfo where
  name : String
  group : String
  hint : String
  params : List NativeParam
  lookback : List Int → Nat
  kernel : List (List ℚ) → List Int → Nat → List ℚ

/-- Modelled from the spec: the descriptor a caller obtains from `resolve`
(the test suite's `TaFunction` object): name, group, hint, counts and
ordered descriptions of inputs, outputs and optional parameters. -/
structure FunctionDescriptor where
  name : String
  group : String
  hint : String
  nb_input : Nat
  nb_output : Nat
  input_description : List ParameterDescription
  output_description : List ParameterDescription
  optional_input_description : List OptionalParameterDescription
deriving DecidableEq

/-- Modelled from the spec: the error kinds of the wrapper layer. -/
inductive TaError where
  | initializationError
  | catalogError
  | unknownFunctionError
  | invalidArgumentError (what : String)
  | computationError (code : Int)
deriving DecidableEq

/-- Input-price-like entries of a native parameter table, native order kept. -/
def inputsOf (ps : List NativeParam) : List ParameterDescription :=
  ps.filterMap fun p =>
    match p with
    | .input d => some d
    | _ => none

/-- Output entries of a native parameter table, native order kept. -/
def outputsOf (ps : List NativeParam) : List ParameterDescription :=
  ps.filterMap fun p =>
    match p with
    | .output d => some d
    | _ => none

/-- Optional-parameter entries of a native parameter table, native order kept. -/
def optionalsOf (ps : List NativeParam) : List OptionalParameterDescription :=
  ps.filterMap fun p =>
    match p with
    | .optional d => some d
    | _ => none

/-- Modelled from the spec: build a `FunctionDescriptor` from a native
metadata record by iterating the parameter table once and bucketing the
entries by kind, the counts taken from the buckets. -/
def descOf (f : NativeFuncInfo) : FunctionDescriptor :=
  { name := f.name
    group := f.group
    hint := f.hint
    nb_input := (inputsOf f.params).length
    nb_output := (outputsOf f.params).length
    input_description := inputsOf f.params
    output_description := outputsOf f.params
    optional_input_description := optionalsOf f.params }

/-- Modelled from the spec: the non-zero "is a plotted line" output flag
(`ta_abstract.OUT_LINE` in the test suite). -/
def OUT_LINE : Nat := 1

/-- Modelled from the spec: lookback of the moving average, `period - 1`
samples where the period is the first optional value (default 30). -/
def maLookback (opts : List Int) : Nat :=
  (opts.getD 0 30).toNat - 1

/-- Modelled from the spec: the native moving-average mathematics, the mean
of the trailing `period` input samples ending at the given index. -/
def maKernel (inputs : List (List ℚ)) (opts : List Int) (i : Nat) : List ℚ :=
  let p := (opts.getD 0 30).toNat
  [((List.range p).map fun j => (inputs.getD 0 []).getD (i + 1 - p + j) 0).sum / (p : ℚ)]

/-- Modelled from the spec: the MA metadata record, with the field values
the specification records for `resolve("MA")`. -/
def maInfo : NativeFuncInfo :=
  { name := "MA"
    group := "Overlap Studies"
    hint := "Moving average"
    params := [.input ⟨"inReal", "Real", 0⟩,
               .optional ⟨"optInTimePeriod", "Integer", 30⟩,
               .output ⟨"outReal", "Real", OUT_LINE⟩]
    lookback := maLookback
    kernel := maKernel }

/-- Modelled from the spec: the native vector-addition mathematics, the
elementwise sum of the two input buffers, with no lookback. -/
def addKernel (inputs : List (List ℚ)) (_ : List Int) (i : Nat) : List ℚ :=
  [(inputs.getD 0 []).getD i 0 + (inputs.getD 1 []).getD i 0]

/-- Modelled from the spec: the ADD metadata record of the Math Operators
group, two real inputs and one line output. -/
def addInfo : NativeFuncInfo :=
  { name := "ADD"
    group := "Math Operators"
    hint := "Vector Arithmetic Add"
    params := [.input ⟨"inReal0", "Real", 0⟩,
               .input ⟨"inReal1", "Real", 0⟩,
               .output ⟨"outReal", "Real", OUT_LINE⟩]
    lookback := fun _ => 0
    kernel := addKernel }

/-- Modelled from the spec: the native description table, keyed by function
name, restricted to the functions the test suite exercises. -/
def taFuncs : List NativeFuncInfo := [maInfo, addInfo]

/-- Modelled from the spec: the group names the native library enumerates
(one listed group has no function in the modelled table). -/
def taGroups : List String :=
  ["Math Operators", "Overlap Studies", "Volume Indicators"]

/-- Modelled from the spec: `listGroups`, the native enumeration of group
names (`ta_abstract.function_groups` in the test suite). -/
def function_groups (groups : List String) : Except TaError (List String) :=
  Except.ok groups

/-- Modelled from the spec: `listFunctionsInGroup`, the names of the
functions belonging to a group, an empty sequence when the group is empty
or unknown (`ta_abstract.functions_in_group` in the test suite). -/
def functions_in_group (lib : List NativeFuncInfo) (g : String) :
    Except TaError (List String) :=
  Except.ok ((lib.filter fun f => f.group == g).map fun f => f.name)

/-- Modelled from the spec: `resolve`, the lookup of the native abstract
description table by name, an `UnknownFunctionError` when no function with
that name exists (`ta_abstract.TaFunction(name)` in the test suite). -/
def resolve (lib : List NativeFuncInfo) (name : String) :
    Except TaError FunctionDescriptor :=
  match lib.find? (fun f => f.name == name) with
  | none => Except.error TaError.unknownFunctionError
  | some f => Except.ok (descOf f)

/-- Modelled from the spec: the process-wide descriptor cache keyed by name. -/
def Cache : Type := List (String × FunctionDescriptor)

/-- Modelled from the spec: cached resolution; a repeated `resolve` with the
same name returns the stored descriptor instead of rebuilding it. -/
def resolveCached (lib : List NativeFuncInfo) (c : Cache) (name : String) :
    Except TaError (FunctionDescriptor × Cache) :=
  match List.lookup name c with
  | some d => Except.ok (d, c)
  | none =>
    match resolve lib name with
    | Except.error e => Except.error e
    | Except.ok d => Except.ok (d, (name, d) :: c)

/-- Modelled from the spec: the result of one invocation, the output
buffers plus the valid computed sub-range (`begin` an offset within the
requested range, `count` the number of valid samples, both native ints). -/
structure InvocationResult where
  outputs : List (List ℚ)
  begin : Int
  count : Int
deriving DecidableEq

/-- Modelled from the spec: the resolved flat list of optional values, an
override when the caller supplied one and the recorded default otherwise. -/
def resolveOpts (d : FunctionDescriptor) (overrides : List (String × Int)) :
    List Int :=
  d.optional_input_description.map fun o =>
    (List.lookup o.name overrides).getD o.defaultValue

/-- Modelled from the spec: the generic native invocation entry point over
`[startIdx, endIdx]`; the first valid output sample is at the lookback
index, so the routine reports the offset of that sample within the
requested range and how many valid samples follow. -/
def nativeCall (f : NativeFuncInfo) (startIdx endIdx : Nat)
    (inputs : List (List ℚ)) (opts : List Int) : InvocationResult :=
  if endIdx < max startIdx (f.lookback opts) then
    { outputs := List.replicate (outputsOf f.params).length []
      begin := 0
      count := 0 }
  else
    { outputs := (List.range (outputsOf f.params).length).map fun j =>
        (List.range (endIdx - max startIdx (f.lookback opts) + 1)).map fun i =>
          (f.kernel inputs opts (max startIdx (f.lookback opts) + i)).getD j 0
      begin := ((max startIdx (f.lookback opts) - startIdx : Nat) : Int)
      count := ((endIdx - max startIdx (f.lookback opts) + 1 : Nat) : Int) }

/-- Modelled from the spec: `invoke`; argument validation (input count,
range ordering, buffer lengths, optional-parameter names) happens before
the native call and fails with `InvalidArgumentError`, and only then is the
native routine dispatched with the resolved optional values. -/
def invoke (f : NativeFuncInfo) (startIdx endIdx : Nat)
    (inputs : List (List ℚ)) (overrides : List (String × Int)) :
    Except TaError InvocationResult :=
  if inputs.length ≠ (descOf f).nb_input then
    Except.error (TaError.invalidArgumentError "inputs")
  else if endIdx < startIdx then
    Except.error (TaError.invalidArgumentError "range")
  else if inputs.any (fun arr => decide (arr.length < endIdx - startIdx + 1)) then
    Except.error (TaError.invalidArgumentError "input length")
  else if overrides.any (fun kv =>
      !((descOf f).optional_input_description.any fun o => o.name == kv.fst)) then
    Except.error (TaError.invalidArgumentError "optional parameter")
  else
    Except.ok (nativeCall f startIdx endIdx inputs (resolveOpts (descOf f) overrides))

/-- Modelled from the spec: the process-wide lifecycle state of the native
engine handle. -/
structure TaModule where
  initialized : Bool
deriving DecidableEq

/-- Modelled from the spec: loading the extension module brings the engine
up, so the caller issues no explicit lifecycle call before using it (the
test suite constructs and invokes functions directly after import). -/
def moduleLoad : TaModule := { initialized := true }

/-- Modelled from the spec: `finalize`, the single shutdown call releasing
the engine (`ta_abstract.finalize` in the test suite). -/
def ta_finalize (_ : TaModule) : TaModule := { initialized := false }

/-- Modelled from the spec: the caller-facing group listing, guarded by the
engine lifecycle state. -/
def ta_function_groups (m : TaModule) : Except TaError (List String) :=
  if m.initialized then function_groups taGroups
  else Except.error TaError.initializationError

/-- Modelled from the spec: the caller-facing functions-in-group listing,
guarded by the engine lifecycle state. -/
def ta_functions_in_group (m : TaModule) (g : String) :
    Except TaError (List String) :=
  if m.initialized then functions_in_group taFuncs g
  else Except.error TaError.initializationError

/-- Modelled from the spec: the caller-facing descriptor resolution,
guarded by the engine lifecycle state. -/
def ta_resolve (m : TaModule) (name : String) :
    Except TaError FunctionDescriptor :=
  if m.initialized then resolve taFuncs name
  else Except.error TaError.initializationError

/-- Modelled from the spec: the caller-facing invocation, guarded by the
engine lifecycle state. -/
def ta_invoke (m : TaModule) (f : NativeFuncInfo) (startIdx endIdx : Nat)
    (inputs : List (List ℚ)) (overrides : List (String × Int)) :
    Except TaError InvocationResult :=
  if m.initialized then invoke f startIdx endIdx inputs overrides
  else Except.error TaError.initializationError

/-- C4: `resolve("MA")` yields a descriptor with one input, one output,
group "Overlap Studies", a non-empty optional-parameter list, input
description `inReal : Real` with flags 0 and output description
`outReal : Real` with the non-zero line flag. -/
theorem resolve_MA_descriptor_fields :
    ∃ d, resolve taFuncs "MA" = Except.ok d ∧
      d.nb_input = 1 ∧ d.nb_output = 1 ∧ d.group = "Overlap Studies" ∧
      d.optional_input_description ≠ [] ∧
      d.input_description = [⟨"inReal", "Real", 0⟩] ∧
      d.output_description = [⟨"outReal", "Real", OUT_LINE⟩] ∧
      OUT_LINE ≠ 0 := by
  refine ⟨descOf maInfo, rfl, rfl, rfl, rfl, ?_, rfl, rfl, ?_⟩ <;> decide

/-- C6: every descriptor produced by `resolve` has as many input
descriptions as `nb_input` and as many output descriptions as `nb_output`. -/
theorem resolve_descriptor_lengths (lib : List NativeFuncInfo) (name : String)
    (d : FunctionDescriptor) (h : resolve lib name = Except.ok d) :
    d.input_description.length = d.nb_input ∧
    d.output_description.length = d.nb_output := by
  unfold resolve at h
  cases hf : lib.find? (fun f => f.name == name) with
  | none => rw [hf] at h; exact absurd h (by simp)
  | some f =>
    rw [hf] at h
    cases h
    exact ⟨rfl, rfl⟩

/-- Witness for C6 at the concrete table and the name MA. -/
theorem resolve_descriptor_lengths_witness :
    resolve taFuncs "MA" = Except.ok (descOf maInfo) ∧
    (descOf maInfo).input_description.length = (descOf maInfo).nb_input ∧
    (descOf maInfo).output_description.length = (descOf maInfo).nb_output :=
  ⟨rfl, resolve_descriptor_lengths taFuncs "MA" (descOf maInfo) rfl⟩

/-- C8: resolution fails with `UnknownFunctionError` exactly when no
function with the requested name exists in the native description table,
and otherwise returns a descriptor. -/
theorem resolve_unknown_iff_absent (lib : List NativeFuncInfo) (name : String) :
    (resolve lib name = Except.error TaError.unknownFunctionError ∨
      ∃ d, resolve lib name = Except.ok d) ∧
    (resolve lib name = Except.error TaError.unknownFunctionError ↔
      ∀ f ∈ lib, f.name ≠ name) := by
  unfold resolve
  cases hf : lib.find? (fun f => f.name == name) with
  | none =>
    refine ⟨Or.inl rfl, ?_, fun _ => rfl⟩
    intro _ f hmem hname
    have := List.find?_eq_none.mp hf f hmem
    simp [hname] at this
  | some f =>
    have hmem : f ∈ lib := List.mem_of_find?_eq_some hf
    have hname : f.name = name := by
      have := List.find?_some hf
      simpa using this
    refine ⟨Or.inr ⟨descOf f, rfl⟩, ?_, ?_⟩
    · intro h; exact absurd h (by simp)
    · intro h; exact absurd hname (h f hmem)

/-- C9: listing the functions of a group that contains no function — be it
a listed-but-empty group or an unknown group name — returns the empty
sequence and no error. -/
theorem functions_in_group_empty (g : String)
    (h : ∀ f ∈ taFuncs, f.group ≠ g) :
    functions_in_group taFuncs g = Except.ok [] := by
  unfold functions_in_group
  have hnil : taFuncs.filter (fun f => f.group == g) = [] := by
    rw [List.filter_eq_nil_iff]
    intro f hmem
    simp [h f hmem]
  rw [hnil]
  rfl

/-- Witness for C9 at a listed group with no member function. -/
theorem functions_in_group_empty_witness :
    (∀ f ∈ taFuncs, f.group ≠ "Volume Indicators") ∧
    functions_in_group taFuncs "Volume Indicators" = Except.ok [] :=
  ⟨by decide, functions_in_group_empty "Volume Indicators" (by decide)⟩

/-- C7: for a name present in the native table, a first resolution through
the cache and a second one straight after return descriptors with identical
field values. -/
theorem resolve_twice_same_descriptor (lib : List NativeFuncInfo)
    (name : String) (hknown : ∃ f ∈ lib, f.name = name) :
    ∃ d1 c1 d2 c2,
      resolveCached lib [] name = Except.ok (d1, c1) ∧
      resolveCached lib c1 name = Except.ok (d2, c2) ∧
      d1 = d2 := by
  obtain ⟨f, hmem, hname⟩ := hknown
  have hsome : (lib.find? (fun g => g.name == name)).isSome := by
    rw [List.find?_isSome]
    exact ⟨f, hmem, by simp [hname]⟩
  obtain ⟨g, hg⟩ := Option.isSome_iff_exists.mp hsome
  refine ⟨descOf g, [(name, descOf g)], descOf g, [(name, descOf g)], ?_, ?_, rfl⟩
  · unfold resolveCached resolve
    rw [hg]
    rfl
  · unfold resolveCached
    simp [List.lookup]

/-- Witness for C7 at the concrete table and the name MA. -/
theorem resolve_twice_same_descriptor_witness :
    (∃ f ∈ taFuncs, f.name = "MA") ∧
    ∃ d1 c1 d2 c2,
      resolveCached taFuncs [] "MA" = Except.ok (d1, c1) ∧
      resolveCached taFuncs c1 "MA" = Except.ok (d2, c2) ∧
      d1 = d2 :=
  ⟨⟨maInfo, by simp [taFuncs], rfl⟩,
   resolve_twice_same_descriptor taFuncs "MA" ⟨maInfo, by simp [taFuncs], rfl⟩⟩

/-- C10: every caller-facing operation succeeds on the freshly loaded
module with no prior explicit lifecycle call by the caller, and the single
required lifecycle call is the final `finalize`. -/
theorem module_needs_only_finalize :
    (∃ gs, ta_function_groups moduleLoad = Except.ok gs) ∧
    (∀ g, ∃ fs, ta_functions_in_group moduleLoad g = Except.ok fs) ∧
    (∀ name, ta_resolve moduleLoad name = resolve taFuncs name) ∧
    (∀ f s e ins ov, ta_invoke moduleLoad f s e ins ov = invoke f s e ins ov) ∧
    (ta_finalize moduleLoad).initialized = false :=
  ⟨⟨taGroups, rfl⟩, fun _ => ⟨_, rfl⟩, fun _ => rfl, fun _ _ _ _ _ => rfl, rfl⟩

/-- C2: an invocation violating a precondition — wrong input count, a
reversed range, an input buffer shorter than the requested range (the
highlighted case), or an override naming no optional parameter of the
descriptor — fails with `InvalidArgumentError` and yields no output
buffers, the validation sitting before the native call. -/
theorem invoke_precondition_violation (f : NativeFuncInfo) (s e : Nat)
    (ins : List (List ℚ)) (ov : List (String × Int))
    (h : ins.length ≠ (descOf f).nb_input ∨ e < s ∨
         (∃ arr ∈ ins, arr.length < e - s + 1) ∨
         (∃ kv ∈ ov, ∀ o ∈ (descOf f).optional_input_description,
           o.name ≠ kv.fst)) :
    ∃ msg, invoke f s e ins ov =
      Except.error (TaError.invalidArgumentError msg) := by
  unfold invoke
  split
  · exact ⟨_, rfl⟩
  next h1 =>
  split
  · exact ⟨_, rfl⟩
  next h2 =>
  split
  · exact ⟨_, rfl⟩
  next h3 =>
  split
  · exact ⟨_, rfl⟩
  next h4 =>
  exfalso
  rcases h with h | h | h | h
  · exact h1 h
  · exact h2 h
  · apply h3
    rw [List.any_eq_true]
    obtain ⟨arr, ha, hl⟩ := h
    exact ⟨arr, ha, by simpa using hl⟩
  · apply h4
    rw [List.any_eq_true]
    obtain ⟨kv, hkv, hall⟩ := h
    refine ⟨kv, hkv, ?_⟩
    simp only [Bool.not_eq_true', List.any_eq_false, beq_iff_eq]
    exact fun o ho => hall o ho

/-- Witness for C2: invoking ADD over the range `[0, 10]` with buffers of
length 1 fails with `InvalidArgumentError`. -/
theorem invoke_precondition_violation_witness :
    (∃ arr ∈ [[(1 : ℚ)], [1]], arr.length < 10 - 0 + 1) ∧
    ∃ msg, invoke addInfo 0 10 [[(1 : ℚ)], [1]] [] =
      Except.error (TaError.invalidArgumentError msg) :=
  ⟨⟨[1], by simp, by norm_num⟩,
   invoke_precondition_violation addInfo 0 10 [[(1 : ℚ)], [1]] []
     (Or.inr (Or.inr (Or.inl ⟨[1], by simp, by norm_num⟩)))⟩

/-- C5: every successful invocation reports a non-negative `begin` and a
sub-range with `begin + count` within the requested range length. -/
theorem invoke_ok_range_invariant (f : NativeFuncInfo) (s e : Nat)
    (ins : List (List ℚ)) (ov : List (String × Int)) (r : InvocationResult)
    (h : invoke f s e ins ov = Except.ok r) :
    0 ≤ r.begin ∧ r.begin + r.count ≤ (e : Int) - (s : Int) + 1 := by
  unfold invoke at h
  split at h
  · exact absurd h (by simp)
  next h1 =>
  split at h
  · exact absurd h (by simp)
  next h2 =>
  split at h
  · exact absurd h (by simp)
  next h3 =>
  split at h
  · exact absurd h (by simp)
  next h4 =>
  have hr : nativeCall f s e ins (resolveOpts (descOf f) ov) = r :=
    Except.ok.inj h
  subst hr
  unfold nativeCall
  split
  next hend =>
    refine ⟨le_refl 0, ?_⟩
    simp only
    omega
  next hend =>
    simp only
    constructor
    · omega
    · omega

/-- Witness for C5 at a successful concrete ADD invocation. -/
theorem invoke_ok_range_invariant_witness :
    invoke addInfo 0 0 [[(1 : ℚ)], [2]] [] = Except.ok
      (nativeCall addInfo 0 0 [[(1 : ℚ)], [2]]
        (resolveOpts (descOf addInfo) [])) ∧
    0 ≤ (nativeCall addInfo 0 0 [[(1 : ℚ)], [2]]
        (resolveOpts (descOf addInfo) [])).begin ∧
    (nativeCall addInfo 0 0 [[(1 : ℚ)], [2]]
        (resolveOpts (descOf addInfo) [])).begin +
      (nativeCall addInfo 0 0 [[(1 : ℚ)], [2]]
        (resolveOpts (descOf addInfo) [])).count ≤
      ((0 : Nat) : Int) - ((0 : Nat) : Int) + 1 :=
  ⟨rfl, invoke_ok_range_invariant addInfo 0 0 [[(1 : ℚ)], [2]] [] _ rfl⟩

/-- C3: invoking MA with an explicit time-period override of 12 over the
full valid range of a 100-element input yields `begin ≥ 11` and
`count = 100 - begin`. -/
theorem invoke_MA_period12_range (xs : List ℚ) (h : xs.length = 100) :
    ∃ r, invoke maInfo 0 99 [xs] [("optInTimePeriod", 12)] = Except.ok r ∧
      (11 : Int) ≤ r.begin ∧ r.count = 100 - r.begin := by
  refine ⟨nativeCall maInfo 0 99 [xs]
      (resolveOpts (descOf maInfo) [("optInTimePeriod", 12)]), ?_, ?_, ?_⟩
  · have h1 : ¬([xs].length ≠ (descOf maInfo).nb_input) := fun hn => hn rfl
    have h2 : ¬(99 < 0) := by decide
    have h3 : ¬(([xs].any fun arr =>
        decide (arr.length < 99 - 0 + 1)) = true) := by
      simp only [List.any_cons, List.any_nil, Bool.or_false, decide_eq_true_eq]
      omega
    have h4 : ¬(([("optInTimePeriod", (12 : Int))].any fun kv =>
        !((descOf maInfo).optional_input_description.any fun o =>
          o.name == kv.fst)) = true) := by decide
    unfold invoke
    rw [if_neg h1, if_neg h2, if_neg h3, if_neg h4]
  · show (11 : Int) ≤ 11
    exact le_refl _
  · show (89 : Int) = 100 - 11
    norm_num

/-- Witness for C3 at a concrete 100-element input. -/
theorem invoke_MA_period12_range_witness :
    (List.replicate 100 (0 : ℚ)).length = 100 ∧
    ∃ r, invoke maInfo 0 99 [List.replicate 100 (0 : ℚ)]
        [("optInTimePeriod", 12)] = Except.ok r ∧
      (11 : Int) ≤ r.begin ∧ r.count = 100 - r.begin :=
  ⟨by simp,
   invoke_MA_period12_range (List.replicate 100 (0 : ℚ)) (by simp)⟩

/-- C1: invoking ADD over the range `[0, 10]` with two identical input
buffers of length at least 50 succeeds with exactly `nb_output = 1` output
arrays, and each of the `count` valid samples of the single output equals
the sum of the two input samples at offset `begin + i`. -/
theorem invoke_ADD_elementwise (xs : List ℚ) (h : 50 ≤ xs.length) :
    ∃ r, invoke addInfo 0 10 [xs, xs] [] = Except.ok r ∧
      r.outputs.length = (descOf addInfo).nb_output ∧
      (descOf addInfo).nb_output = 1 ∧
      r.begin = 0 ∧ r.count = 11 ∧
      ∀ i : Nat, (i : Int) < r.count →
        (r.outputs.getD 0 []).getD i 0 =
          xs.getD (r.begin.toNat + i) 0 + xs.getD (r.begin.toNat + i) 0 := by
  refine ⟨nativeCall addInfo 0 10 [xs, xs] (resolveOpts (descOf addInfo) []),
    ?_, rfl, rfl, rfl, rfl, ?_⟩
  · have h1 : ¬([xs, xs].length ≠ (descOf addInfo).nb_input) := fun hn => hn rfl
    have h2 : ¬(10 < 0) := by decide
    have h3 : ¬(([xs, xs].any fun arr =>
        decide (arr.length < 10 - 0 + 1)) = true) := by
      simp only [List.any_cons, List.any_nil, Bool.or_false, Bool.or_self,
        decide_eq_true_eq]
      omega
    have h4 : ¬((([] : List (String × Int)).any fun kv =>
        !((descOf addInfo).optional_input_description.any fun o =>
          o.name == kv.fst)) = true) := by decide
    unfold invoke
    rw [if_neg h1, if_neg h2, if_neg h3, if_neg h4]
  · intro i hi
    have hc : (nativeCall addInfo 0 10 [xs, xs]
        (resolveOpts (descOf addInfo) [])).count = 11 := rfl
    rw [hc] at hi
    have hi11 : i < 11 := by exact_mod_cast hi
    have ho : (nativeCall addInfo 0 10 [xs, xs]
        (resolveOpts (descOf addInfo) [])).outputs.getD 0 [] =
        (List.range 11).map fun j =>
          (addKernel [xs, xs] (resolveOpts (descOf addInfo) [])
            (0 + j)).getD 0 0 :=
      rfl
    have hb : (nativeCall addInfo 0 10 [xs, xs]
        (resolveOpts (descOf addInfo) [])).begin = 0 := rfl
    rw [ho, hb]
    rw [List.getD_eq_getElem?_getD, List.getElem?_map, List.getElem?_range hi11]
    simp [addKernel]

/-- Witness for C1 at a concrete 50-element input used twice. -/
theorem invoke_ADD_elementwise_witness :
    50 ≤ (List.replicate 50 (1 : ℚ)).length ∧
    ∃ r, invoke addInfo 0 10
        [List.replicate 50 (1 : ℚ), List.replicate 50 (1 : ℚ)] [] =
        Except.ok r ∧
      r.outputs.length = (descOf addInfo).nb_output ∧
      (descOf addInfo).nb_output = 1 ∧
      r.begin = 0 ∧ r.count = 11 ∧
      ∀ i : Nat, (i : Int) < r.count →
        (r.outputs.getD 0 []).getD i 0 =
          (List.replicate 50 (1 : ℚ)).getD (r.begin.toNat + i) 0 +
          (List.replicate 50 (1 : ℚ)).getD (r.begin.toNat + i) 0 :=
  ⟨by simp, invoke_ADD_elementwise (List.replicate 50 (1 : ℚ)) (by simp)⟩

end TaAbstract
